import Mathlib

/-!
Verification development for the Struktos NestJS adapter.

The definitions below are a shallow embedding of the repository source:
the authorization guard (src/guards/auth.guard.ts), the context
middleware (the StruktosMiddleware in src/interceptors), and the
context parameter decorators. Stateful pieces (the ambient request
context, the request object, the transport event listeners) are made
explicit as values threaded through the functions; asynchronous
provider calls are modelled as an Except-valued function, with the
source try/catch reflected by matching on the error constructor.
-/

/-- A concrete claim held by a principal: type and value strings. -/
structure Claim where
  type : String
  value : String
deriving DecidableEq, Repr

/-- A claim requirement declared on a route: a type and an optional value,
mirroring the ClaimRequirement interface of the source. -/
structure ClaimRequirement where
  type : String
  value : Option String
deriving DecidableEq, Repr

/-- The User interface of the auth guard: id, username, email, optional
roles and optional claims, as in the source. -/
structure User where
  id : String
  username : String
  email : String
  roles : Option (List String)
  claims : Option (List Claim)
deriving DecidableEq, Repr

/-- The roles list of a principal as the guard reads it: user.roles with
a missing list read as empty (the source writes user.roles or []). -/
def principalRoles (u : User) : List String :=
  u.roles.getD []

/-- The claims list of a principal, with a missing list read as empty. -/
def principalClaims (u : User) : List Claim :=
  u.claims.getD []

/-- The claims metadata slot of a route: the source accepts a single
ClaimRequirement or an array of them under the same metadata key. -/
inductive ClaimsDecl where
  | single (c : ClaimRequirement)
  | many (cs : List ClaimRequirement)
deriving DecidableEq, Repr

/-- Normalisation performed by the guard: a single requirement is wrapped
into a one-element array before the AND loop. -/
def ClaimsDecl.toList : ClaimsDecl → List ClaimRequirement
  | .single c => [c]
  | .many cs => cs

/-- Embedding of the inner predicate of checkClaims: a concrete claim
satisfies a requirement when the types match and, if the requirement
carries a value, the values match exactly. -/
def claimMatches (claim : Claim) (req : ClaimRequirement) : Bool :=
  if claim.type ≠ req.type then false
  else
    match req.value with
    | some v => claim.value = v
    | none => true

/-- Embedding of StruktosAuthGuard.checkClaims: returns false when the
principal has no claims or an empty claim list, otherwise requires every
declared requirement to be matched by some claim (AND over requirements,
existential over the principal claims). -/
def checkClaims (user : User) (requiredClaims : ClaimsDecl) : Bool :=
  match user.claims with
  | none => false
  | some cs =>
    if cs.isEmpty then false
    else requiredClaims.toList.all fun req => cs.any fun c => claimMatches c req

/-- Embedding of StruktosAuthGuard.checkRoles: false when the principal
has no roles or an empty role list, otherwise true when at least one
required role is held (OR semantics). -/
def checkRoles (user : User) (requiredRoles : List String) : Bool :=
  match user.roles with
  | none => false
  | some rs =>
    if rs.isEmpty then false
    else requiredRoles.any fun role => rs.contains role

/-- Embedding of JavaScript Array.join with a comma separator, used for
the Forbidden message naming the required roles. -/
def joinComma : List String → String
  | [] => ""
  | [x] => x
  | x :: y :: rest => x ++ ", " ++ joinComma (y :: rest)

/-- Rendering of one claim requirement in the Forbidden message: the
source renders the value, with a star for an absent or empty value
(value or star under JavaScript truthiness). -/
def claimStr (c : ClaimRequirement) : String :=
  c.type ++ ":" ++
    (match c.value with
     | some v => if v = "" then "*" else v
     | none => "*")

/-- Rendering of the whole claims declaration in the Forbidden message. -/
def claimsDeclStr : ClaimsDecl → String
  | .many cs => joinComma (cs.map claimStr)
  | .single c => claimStr c

/-- The ambient request context record (NestJSContextData) restricted to
the fields touched by the guard and the decorators: traceId and
timestamp are always set by the middleware; user, userId and roles are
optional; cancelled is the cooperative cancellation flag. -/
structure ContextData where
  traceId : String
  timestamp : Nat
  user : Option User
  userId : Option String
  roles : Option (List String)
  cancelled : Bool
deriving DecidableEq, Repr

/-- The optional authentication provider: validateToken may throw
(modelled as an error value) or return a possibly null user. -/
structure AuthService where
  validateToken : String → Except String (Option User)

/-- Embedding of the split of the authorization header on a single space
character, matching JavaScript String.split with a one-space separator
(empty fields are preserved, an empty input yields one empty field). -/
def splitSpaceAux : List Char → List Char → List String
  | [], acc => [String.mk acc.reverse]
  | c :: rest, acc =>
    if c = ' ' then String.mk acc.reverse :: splitSpaceAux rest []
    else splitSpaceAux rest (c :: acc)

/-- Split a string on the space character, JavaScript style. -/
def splitSpace (s : String) : List String :=
  splitSpaceAux s.toList []

/-- Embedding of StruktosAuthGuard.authenticateRequest, instrumented
with the number of validateToken invocations. No service or no
authorization header yields no principal without a call; a header whose
space-split is not exactly a Bearer keyword followed by a token yields
no principal without a call; otherwise the token is validated, with a
thrown error caught and downgraded to no principal. -/
def authenticateRequest (svc : Option AuthService) (authHeader : Option String) :
    Option User × Nat :=
  match svc with
  | none => (none, 0)
  | some s =>
    match authHeader with
    | none => (none, 0)
    | some h =>
      match splitSpace h with
      | [p0, p1] =>
        if p0 = "Bearer" then
          match s.validateToken p1 with
          | Except.ok u => (u, 1)
          | Except.error _ => (none, 1)
        else (none, 0)
      | _ => (none, 0)

/-- Embedding of StruktosAuthGuard.storeUserInContext: writes the user,
its id and its roles (missing roles written as an empty list) into the
ambient context when one is active, and sets the user on the request
object; returns the updated context and request user slot. -/
def storeUserInContext (user : User) (ctx : Option ContextData) :
    Option ContextData × Option User :=
  (ctx.map fun c =>
     { c with user := some user, userId := some user.id,
              roles := some (principalRoles user) },
   some user)

/-- Guard errors: UnauthorizedException and ForbiddenException with
their messages. -/
inductive GuardError where
  | unauthorized (msg : String)
  | forbidden (msg : String)
deriving DecidableEq, Repr

/-- One invocation of the guard, as data: the metadata found by the
reflector on the handler (operation level) and on the class (group
level), the ambient context at entry, the user slot of the request,
the authorization header and the optional provider. -/
structure GuardInput where
  handlerPublic : Option Bool
  classPublic : Option Bool
  handlerRoles : Option (List String)
  classRoles : Option (List String)
  handlerClaims : Option ClaimsDecl
  classClaims : Option ClaimsDecl
  ctx : Option ContextData
  requestUser : Option User
  authHeader : Option String
  authService : Option AuthService

/-- The observable outcome of canActivate: the decision or thrown
exception, the final ambient context, the final request user slot, and
how many times the provider was invoked. -/
structure GuardOutcome where
  result : Except GuardError Bool
  ctx : Option ContextData
  requestUser : Option User
  providerCalls : Nat

/-- Embedding of Reflector.getAllAndOverride over handler then class:
the first defined metadata value wins, so the operation level overrides
the group level when present. -/
def getAllAndOverride {α : Type} (handlerVal classVal : Option α) : Option α :=
  match handlerVal with
  | some v => some v
  | none => classVal

/-- The effective public marker of a route. -/
def effectiveIsPublic (inp : GuardInput) : Option Bool :=
  getAllAndOverride inp.handlerPublic inp.classPublic

/-- The effective role requirement of a route. -/
def effectiveRoles (inp : GuardInput) : Option (List String) :=
  getAllAndOverride inp.handlerRoles inp.classRoles

/-- The effective claims declaration of a route. -/
def effectiveClaims (inp : GuardInput) : Option ClaimsDecl :=
  getAllAndOverride inp.handlerClaims inp.classClaims

/-- The user found before any provider call: the ambient context user,
falling back to the request user slot (the source reads
getUserFromContext or request.user). -/
def initialUser (inp : GuardInput) : Option User :=
  match inp.ctx.bind fun c => c.user with
  | some u => some u
  | none => inp.requestUser

/-- The user after the optional authentication step, with the number of
provider invocations: the provider is consulted only when no user is
present and a service is configured. -/
def resolveUser (inp : GuardInput) : Option User × Nat :=
  match initialUser inp with
  | some u => (some u, 0)
  | none =>
    if inp.authService.isSome then
      authenticateRequest inp.authService inp.authHeader
    else (none, 0)

/-- Truthiness of the role requirement in the guard: the metadata is
defined and the list is non-empty. -/
def rolesRequired (inp : GuardInput) : Bool :=
  match effectiveRoles inp with
  | some rs => !rs.isEmpty
  | none => false

/-- Truthiness of the claims requirement in the guard: any defined
claims metadata counts, including an empty array. -/
def claimsRequired (inp : GuardInput) : Bool :=
  (effectiveClaims inp).isSome

/-- The part of canActivate after the public check and the user
resolution: if a role or claims requirement is in force, a missing user
throws Unauthorized, otherwise the user is stored in context and on the
request before the role check and then the claims check, each throwing
Forbidden with a message naming the unmet requirement; with no
requirement in force the user, when present, is still stored and the
request is allowed. -/
def afterAuth (inp : GuardInput) (user : Option User) (calls : Nat) : GuardOutcome :=
  if rolesRequired inp || claimsRequired inp then
    match user with
    | none =>
      { result := Except.error (GuardError.unauthorized "Authentication required"),
        ctx := inp.ctx, requestUser := inp.requestUser, providerCalls := calls }
    | some u =>
      let stored := storeUserInContext u inp.ctx
      if rolesRequired inp && !checkRoles u ((effectiveRoles inp).getD []) then
        { result := Except.error (GuardError.forbidden
            ("Required roles: " ++ joinComma ((effectiveRoles inp).getD []))),
          ctx := stored.1, requestUser := stored.2, providerCalls := calls }
      else if claimsRequired inp &&
          !checkClaims u ((effectiveClaims inp).getD (ClaimsDecl.many [])) then
        { result := Except.error (GuardError.forbidden
            ("Required claims: " ++
              claimsDeclStr ((effectiveClaims inp).getD (ClaimsDecl.many [])))),
          ctx := stored.1, requestUser := stored.2, providerCalls := calls }
      else
        let stored2 := storeUserInContext u stored.1
        { result := Except.ok true, ctx := stored2.1, requestUser := stored2.2,
          providerCalls := calls }
  else
    match user with
    | some u =>
      let stored := storeUserInContext u inp.ctx
      { result := Except.ok true, ctx := stored.1, requestUser := stored.2,
        providerCalls := calls }
    | none =>
      { result := Except.ok true, ctx := inp.ctx, requestUser := inp.requestUser,
        providerCalls := calls }

/-- Embedding of StruktosAuthGuard.canActivate: a truthy effective
public marker allows immediately with no further effect; otherwise the
user is resolved (possibly via the provider) and the requirement checks
of afterAuth run. -/
def canActivate (inp : GuardInput) : GuardOutcome :=
  if (effectiveIsPublic inp).getD false then
    { result := Except.ok true, ctx := inp.ctx, requestUser := inp.requestUser,
      providerCalls := 0 }
  else
    afterAuth inp (resolveUser inp).1 (resolveUser inp).2

/-- Transport events observed by the listeners registered in
StruktosMiddleware.use: request close, request aborted, response
finish. -/
inductive TransportEvent where
  | close
  | aborted
  | finish
deriving DecidableEq, Repr

/-- Listener state of one request wrapped by the middleware: whether the
disconnect listeners are still attached, the cancellation flag of the
context, and how many times each lifecycle callback has run. -/
structure MiddlewareState where
  cancelListenersAttached : Bool
  cancelled : Bool
  createdCalls : Nat
  destroyedCalls : Nat
deriving DecidableEq, Repr

/-- State right after StruktosMiddleware.use has set everything up:
onContextCreated has run once, the context is not cancelled, and the
close and aborted listeners are attached exactly when cancellation is
enabled. -/
def middlewareStart (enableCancellation : Bool) : MiddlewareState :=
  { cancelListenersAttached := enableCancellation, cancelled := false,
    createdCalls := 1, destroyedCalls := 0 }

/-- Effect of one transport event given the listeners registered by the
middleware: close and aborted cancel the context while their listeners
are attached; finish removes those listeners and runs the
onContextDestroyed callback, which is registered on finish only and
guarded by no flag. -/
def middlewareStep (s : MiddlewareState) : TransportEvent → MiddlewareState
  | .close => if s.cancelListenersAttached then { s with cancelled := true } else s
  | .aborted => if s.cancelListenersAttached then { s with cancelled := true } else s
  | .finish =>
    { s with cancelListenersAttached := false,
             destroyedCalls := s.destroyedCalls + 1 }

/-- Run the middleware listener semantics over a whole trace of
transport events for one request. -/
def middlewareRun (enableCancellation : Bool) (events : List TransportEvent) :
    MiddlewareState :=
  events.foldl middlewareStep (middlewareStart enableCancellation)

/-- Keys of the ambient context readable through the Ctx decorator, for
the fields modelled here. -/
inductive CtxKey where
  | traceId
  | timestamp
  | user
  | userId
  | roles
deriving DecidableEq, Repr

/-- Values produced by the context decorators. -/
inductive DecoratorResult where
  | context (c : ContextData)
  | str (s : String)
  | num (n : Nat)
  | usr (u : User)
  | strList (l : List String)
  | claimList (l : List Claim)
deriving DecidableEq, Repr

/-- Reading one key off an active context record, as context.get does:
the always-present fields yield their value, the optional fields yield
their value when set. -/
def ContextData.lookup (c : ContextData) : CtxKey → Option DecoratorResult
  | .traceId => some (.str c.traceId)
  | .timestamp => some (.num c.timestamp)
  | .user => c.user.map .usr
  | .userId => c.userId.map .str
  | .roles => c.roles.map .strList

/-- Embedding of the Ctx parameter decorator: with no active context it
returns undefined; with a key it returns that value off the context;
with no key it returns the whole context. -/
def Ctx (data : Option CtxKey) (cur : Option ContextData) : Option DecoratorResult :=
  match cur with
  | none => none
  | some context =>
    match data with
    | some k => context.lookup k
    | none => some (.context context)

/-- Embedding of the TraceId parameter decorator. -/
def TraceId (cur : Option ContextData) : Option String :=
  cur.map fun c => c.traceId

/-- Properties of a user readable through the CurrentUser decorator. -/
inductive UserField where
  | id
  | username
  | email
  | roles
  | claims
deriving DecidableEq, Repr

/-- Reading one property off a user object, as the CurrentUser decorator
does when a property name is supplied. -/
def User.lookupField (u : User) : UserField → Option DecoratorResult
  | .id => some (.str u.id)
  | .username => some (.str u.username)
  | .email => some (.str u.email)
  | .roles => u.roles.map .strList
  | .claims => u.claims.map .claimList

/-- Embedding of the CurrentUser parameter decorator: undefined when no
context or no user is present; a property when requested, the whole
user otherwise. -/
def CurrentUser (data : Option UserField) (cur : Option ContextData) :
    Option DecoratorResult :=
  match cur.bind fun c => c.user with
  | none => none
  | some u =>
    match data with
    | some f => u.lookupField f
    | none => some (.usr u)

/-- Embedding of the UserId parameter decorator. -/
def UserId (cur : Option ContextData) : Option String :=
  cur.bind fun c => c.userId

/-- Embedding of the RequestTimestamp parameter decorator. -/
def RequestTimestamp (cur : Option ContextData) : Option Nat :=
  cur.map fun c => c.timestamp

/-- Embedding of the IsCancelled parameter decorator, evaluated: the
returned closure reads the cancellation flag of the active context and
reports false when there is no context. -/
def IsCancelled (cur : Option ContextData) : Bool :=
  match cur with
  | none => false
  | some c => c.cancelled

/-- A principal holding the admin and user roles and two claims, as the
admin token of the example application yields. -/
def adminUser : User :=
  { id := "user-1", username := "admin", email := "admin@example.com",
    roles := some ["Admin", "User"],
    claims := some [{ type := "permission", value := "write:documents" },
                    { type := "department", value := "engineering" }] }

/-- A principal holding only the User role and one claim. -/
def plainUser : User :=
  { id := "user-2", username := "johndoe", email := "john@example.com",
    roles := some ["User"],
    claims := some [{ type := "permission", value := "read:documents" }] }

/-- A principal holding only the Moderator role. -/
def moderatorUser : User :=
  { id := "user-4", username := "mod", email := "mod@example.com",
    roles := some ["Moderator"], claims := none }

/-- A principal with an empty claim list. -/
def emptyClaimsUser : User :=
  { id := "user-3", username := "ghost", email := "ghost@example.com",
    roles := some ["User"], claims := some [] }

/-- A fresh ambient context as the middleware would create it, before
any user is attached. -/
def baseCtx : ContextData :=
  { traceId := "trace-1", timestamp := 1000, user := none, userId := none,
    roles := none, cancelled := false }

/-- A provider whose validateToken throws on the expired token and
returns null for every other token. -/
def throwingService : AuthService :=
  { validateToken := fun t =>
      if t = "expired-token" then Except.error "TokenExpiredError"
      else Except.ok none }

/-- Guard invocation where the operation declares the Admin role set,
the group declares the User role set, and the request carries a
principal whose only role is User. -/
def overrideScenario : GuardInput :=
  { handlerPublic := none, classPublic := none,
    handlerRoles := some ["Admin"], classRoles := some ["User"],
    handlerClaims := none, classClaims := none,
    ctx := none, requestUser := some plainUser,
    authHeader := none, authService := none }

/-- Guard invocation where the operation is public while the group
declares the Admin role set and no principal is present. -/
def publicScenario : GuardInput :=
  { handlerPublic := some true, classPublic := none,
    handlerRoles := none, classRoles := some ["Admin"],
    handlerClaims := none, classClaims := none,
    ctx := none, requestUser := none,
    authHeader := none, authService := none }

/-- Guard invocation with no declarations at either level, an active
context and a principal on the request. -/
def noReqScenario : GuardInput :=
  { handlerPublic := none, classPublic := none,
    handlerRoles := none, classRoles := none,
    handlerClaims := none, classClaims := none,
    ctx := some baseCtx, requestUser := some plainUser,
    authHeader := none, authService := none }

/-- Guard invocation with a role requirement, no principal anywhere and
no provider. -/
def unauthScenario : GuardInput :=
  { handlerPublic := none, classPublic := none,
    handlerRoles := some ["Admin"], classRoles := none,
    handlerClaims := none, classClaims := none,
    ctx := none, requestUser := none,
    authHeader := none, authService := none }

/-- Guard invocation with a role requirement, an active context and a
principal present that fails the role check. -/
def deniedScenario : GuardInput :=
  { handlerPublic := none, classPublic := none,
    handlerRoles := some ["Admin"], classRoles := none,
    handlerClaims := none, classClaims := none,
    ctx := some baseCtx, requestUser := some plainUser,
    authHeader := none, authService := none }

/-- Guard invocation with a role requirement, no principal attached, a
configured provider and an expired bearer token. -/
def bearerScenario : GuardInput :=
  { handlerPublic := none, classPublic := none,
    handlerRoles := some ["Admin"], classRoles := none,
    handlerClaims := none, classClaims := none,
    ctx := none, requestUser := none,
    authHeader := some "Bearer expired-token",
    authService := some throwingService }

theorem afterAuth_providerCalls (inp : GuardInput) (user : Option User) (calls : Nat) :
    (afterAuth inp user calls).providerCalls = calls := by
  unfold afterAuth
  rcases user with _ | u <;> split <;> (repeat' split) <;> simp

theorem claimMatches_iff (c : Claim) (req : ClaimRequirement) :
    claimMatches c req = true ↔
      (c.type = req.type ∧ (req.value = none ∨ req.value = some c.value)) := by
  unfold claimMatches
  rcases req with ⟨t, _ | v⟩
  · by_cases h : c.type = t <;> simp [h]
  · by_cases h : c.type = t <;> simp [h, eq_comm]

/-- C9: every context accessor invoked outside any active scope degrades
to absent-value semantics: the Ctx, TraceId, CurrentUser, UserId and
RequestTimestamp decorators return an absent value, and the IsCancelled
accessor reports false, whatever key or property was requested. -/
theorem decorators_absent_outside_scope :
    (∀ k : Option CtxKey, Ctx k none = none) ∧
    TraceId none = none ∧
    (∀ f : Option UserField, CurrentUser f none = none) ∧
    UserId none = none ∧
    RequestTimestamp none = none ∧
    IsCancelled none = false :=
  ⟨fun _ => rfl, rfl, fun _ => rfl, rfl, rfl, rfl⟩

/-- C2: the middleware registers the onContextDestroyed callback only on
the response finish event, with no one-shot guard flag. On a client
disconnect where the response never finishes, the callback runs zero
times even though the cancellation listener did fire, and a transport
that emitted finish twice would run it twice: the exactly-once claim
fails on the disconnect-without-finish trace. -/
theorem middleware_destroy_missed_on_disconnect :
    (middlewareRun true [TransportEvent.close]).destroyedCalls = 0 ∧
    (middlewareRun true [TransportEvent.close]).cancelled = true ∧
    (middlewareRun true [TransportEvent.finish, TransportEvent.finish]).destroyedCalls = 2 :=
  ⟨rfl, rfl, rfl⟩

/-- C3 counterexample: a principal with an empty claim list and an empty
requirement sequence: every element of the empty sequence is satisfied,
yet checkClaims rejects, because the source returns false early whenever
the principal has no claims. -/
theorem checkClaims_empty_requirements_counterexample :
    checkClaims emptyClaimsUser (ClaimsDecl.many []) = false ∧
    ((ClaimsDecl.many []).toList.all fun req =>
       (principalClaims emptyClaimsUser).any fun c => claimMatches c req) = true :=
  ⟨rfl, rfl⟩

/-- C3 (amended): the claim check succeeds if and only if the principal
holds at least one claim and every element of the requirement sequence
is satisfied by some claim of the principal, a claim satisfying a
requirement exactly when the types are equal and the required value,
when present, equals the claim value; a principal with no claims is
rejected even by an empty requirement sequence. -/
theorem checkClaims_characterization :
    ∀ (u : User) (d : ClaimsDecl),
      checkClaims u d = true ↔
        (principalClaims u ≠ [] ∧
         ∀ req ∈ d.toList, ∃ c ∈ principalClaims u,
           c.type = req.type ∧ (req.value = none ∨ req.value = some c.value)) := by
  intro u d
  unfold checkClaims principalClaims
  cases hc : u.claims with
  | none => simp
  | some cs =>
    cases cs with
    | nil => simp
    | cons c0 cs0 =>
      simp [List.all_eq_true, List.any_eq_true, claimMatches_iff]

/-- C3 witness: the admin principal passes a two-element requirement
sequence matching one claim by type and value and the other by type
alone. -/
theorem checkClaims_characterization_witness :
    checkClaims adminUser
      (ClaimsDecl.many [{ type := "permission", value := some "write:documents" },
                        { type := "department", value := none }]) = true :=
  (checkClaims_characterization adminUser
      (ClaimsDecl.many [{ type := "permission", value := some "write:documents" },
                        { type := "department", value := none }])).mpr
    (by decide)

/-- C1: the effective role requirement and the effective claims
requirement are each resolved by the first-defined-wins lookup over
operation level then group level, independently per category: an
operation-level declaration fixes the effective requirement of its own
category, and an absent operation-level declaration defers to the group
level of that category alone. In the concrete scenario where the
operation declares the Admin role set over a group declaring the User
role set, a principal whose only role is User is denied with Forbidden
naming the Admin role. -/
theorem guard_role_claim_precedence :
    (∀ (inp : GuardInput) (rs : List String),
       inp.handlerRoles = some rs → effectiveRoles inp = some rs) ∧
    (∀ inp : GuardInput,
       inp.handlerRoles = none → effectiveRoles inp = inp.classRoles) ∧
    (∀ (inp : GuardInput) (d : ClaimsDecl),
       inp.handlerClaims = some d → effectiveClaims inp = some d) ∧
    (∀ inp : GuardInput,
       inp.handlerClaims = none → effectiveClaims inp = inp.classClaims) ∧
    (canActivate overrideScenario).result =
      Except.error (GuardError.forbidden "Required roles: Admin") := by
  refine ⟨?_, ?_, ?_, ?_, rfl⟩
  · intro inp rs h
    simp [effectiveRoles, getAllAndOverride, h]
  · intro inp h
    simp [effectiveRoles, getAllAndOverride, h]
  · intro inp d h
    simp [effectiveClaims, getAllAndOverride, h]
  · intro inp h
    simp [effectiveClaims, getAllAndOverride, h]

/-- C1 witness: precedence applied at the override scenario, and the
resulting denial of the User-only principal. -/
theorem guard_role_claim_precedence_witness :
    effectiveRoles overrideScenario = some ["Admin"] ∧
    (canActivate overrideScenario).result =
      Except.error (GuardError.forbidden "Required roles: Admin") :=
  ⟨guard_role_claim_precedence.1 overrideScenario ["Admin"] rfl,
   guard_role_claim_precedence.2.2.2.2⟩

/-- C4: whenever the route is not public, an effective role or claims
requirement is in force and the user resolution yields no principal,
canActivate throws Unauthorized with the authentication-required
message; and whenever a principal is already attached through the
ambient context or the request object, the authentication provider is
invoked zero times. -/
theorem guard_unauthenticated_and_no_provider_call :
    (∀ inp : GuardInput,
       (effectiveIsPublic inp).getD false = false →
       (rolesRequired inp || claimsRequired inp) = true →
       (resolveUser inp).1 = none →
       (canActivate inp).result =
         Except.error (GuardError.unauthorized "Authentication required")) ∧
    (∀ inp : GuardInput,
       (initialUser inp).isSome = true →
       (canActivate inp).providerCalls = 0) := by
  constructor
  · intro inp hpub hreq hnone
    simp only [canActivate, hpub, Bool.false_eq_true, if_false, hnone]
    simp [afterAuth, hreq]
  · intro inp hsome
    obtain ⟨u, hu⟩ := Option.isSome_iff_exists.mp hsome
    by_cases hpub : (effectiveIsPublic inp).getD false = true
    · simp [canActivate, hpub]
    · simp only [canActivate, hpub, if_false]
      have hres : resolveUser inp = (some u, 0) := by
        simp [resolveUser, hu]
      rw [hres]
      simp [afterAuth_providerCalls]

/-- C4 witness: the role-protected route with no principal throws
Unauthorized, and the denied scenario with an attached principal makes
zero provider calls. -/
theorem guard_unauthenticated_and_no_provider_call_witness :
    (canActivate unauthScenario).result =
      Except.error (GuardError.unauthorized "Authentication required") ∧
    (canActivate deniedScenario).providerCalls = 0 :=
  ⟨guard_unauthenticated_and_no_provider_call.1 unauthScenario rfl rfl rfl,
   guard_unauthenticated_and_no_provider_call.2 deniedScenario rfl⟩

/-- C5: when the Public marker (which the Public decorator always writes
as true) is declared at the operation level or at the group level, the
guard allows unconditionally and skips every further check: the
outcome is exactly the allow decision with the entry context, the entry
request user and zero provider calls, whatever roles, claims, principal
or provider the input carries. -/
theorem guard_public_bypass :
    ∀ inp : GuardInput,
      inp.handlerPublic ≠ some false →
      inp.classPublic ≠ some false →
      (inp.handlerPublic = some true ∨ inp.classPublic = some true) →
      canActivate inp =
        { result := Except.ok true, ctx := inp.ctx,
          requestUser := inp.requestUser, providerCalls := 0 } := by
  intro inp hh hc hdecl
  have hpub : (effectiveIsPublic inp).getD false = true := by
    unfold effectiveIsPublic getAllAndOverride
    rcases hhp : inp.handlerPublic with _ | b
    · rcases hdecl with h | h
      · rw [hhp] at h
        exact absurd h (by simp)
      · simp [h]
    · cases b
      · exact absurd hhp hh
      · simp
  simp [canActivate, hpub]

/-- C5 witness: the public operation inside an Admin-only group with no
principal present is allowed untouched. -/
theorem guard_public_bypass_witness :
    canActivate publicScenario =
      { result := Except.ok true, ctx := none,
        requestUser := none, providerCalls := 0 } :=
  guard_public_bypass publicScenario (by decide) (by decide) (Or.inl rfl)

/-- C6: the role check succeeds exactly when the principal holds at
least one of the required roles (OR semantics, the intersection is
non-empty); and on a non-public route where the resolved principal
fails a non-empty effective role requirement, canActivate throws
Forbidden with the message naming the required roles. -/
theorem guard_role_or_semantics_forbidden :
    (∀ (u : User) (rs : List String),
       checkRoles u rs = true ↔ ∃ r ∈ rs, r ∈ principalRoles u) ∧
    (∀ (inp : GuardInput) (u : User) (rs : List String),
       (effectiveIsPublic inp).getD false = false →
       (resolveUser inp).1 = some u →
       effectiveRoles inp = some rs →
       rs ≠ [] →
       checkRoles u rs = false →
       (canActivate inp).result =
         Except.error (GuardError.forbidden
           ("Required roles: " ++ joinComma rs))) := by
  constructor
  · intro u rs
    unfold checkRoles principalRoles
    cases hr : u.roles with
    | none => simp
    | some l =>
      cases l with
      | nil => simp
      | cons a as => simp [List.any_eq_true, List.elem_iff]
  · intro inp u rs hpub hres hroles hne hfail
    have hrr : rolesRequired inp = true := by
      simp [rolesRequired, hroles]
      cases rs with
      | nil => exact absurd rfl hne
      | cons a as => simp
    simp only [canActivate, hpub, Bool.false_eq_true, if_false, hres]
    simp [afterAuth, hrr, hroles, hfail]

/-- C6 witness: a principal holding only the Moderator role passes the
Admin-or-Moderator requirement, and the User-only principal of the
override scenario is denied with the message naming the Admin role. -/
theorem guard_role_or_semantics_forbidden_witness :
    checkRoles moderatorUser ["Admin", "Moderator"] = true ∧
    (canActivate overrideScenario).result =
      Except.error (GuardError.forbidden ("Required roles: " ++ joinComma ["Admin"])) :=
  ⟨(guard_role_or_semantics_forbidden.1 moderatorUser ["Admin", "Moderator"]).mpr
     (by decide),
   guard_role_or_semantics_forbidden.2 overrideScenario plainUser ["Admin"]
     rfl rfl rfl (by decide) rfl⟩

/-- C7: with nothing declared at either level (no public marker, no
effective role requirement, no effective claims declaration) the guard
allows whether or not a principal is present; and when one is present
it is written through to the request and, when an ambient context is
active, into the context user, userId and roles fields, which the
current accessor then reads. -/
theorem guard_no_requirements_allow_and_attach :
    ∀ inp : GuardInput,
      inp.handlerPublic = none →
      inp.classPublic = none →
      rolesRequired inp = false →
      claimsRequired inp = false →
      (canActivate inp).result = Except.ok true ∧
      (∀ u : User, (resolveUser inp).1 = some u →
        (canActivate inp).requestUser = some u ∧
        ∀ c : ContextData, inp.ctx = some c →
          (canActivate inp).ctx =
            some { c with user := some u, userId := some u.id,
                          roles := some (principalRoles u) }) := by
  intro inp hhp hcp hnr hnc
  have hpub : (effectiveIsPublic inp).getD false = false := by
    simp [effectiveIsPublic, getAllAndOverride, hhp, hcp]
  have hcan : canActivate inp = afterAuth inp (resolveUser inp).1 (resolveUser inp).2 := by
    simp [canActivate, hpub]
  constructor
  · rw [hcan]
    unfold afterAuth
    rw [hnr, hnc]
    cases (resolveUser inp).1 <;> simp
  · intro u hu
    rw [hcan]
    unfold afterAuth
    rw [hnr, hnc, hu]
    refine ⟨by simp [storeUserInContext], ?_⟩
    intro c hc
    simp [storeUserInContext, hc]

/-- C7 witness: the undeclared route with an active context and a
request principal is allowed, the principal lands on the request, and
the context carries user, userId and roles afterwards. -/
theorem guard_no_requirements_allow_and_attach_witness :
    (canActivate noReqScenario).result = Except.ok true ∧
    (canActivate noReqScenario).requestUser = some plainUser ∧
    (canActivate noReqScenario).ctx =
      some { baseCtx with user := some plainUser, userId := some plainUser.id,
                          roles := some (principalRoles plainUser) } := by
  obtain ⟨h1, h2⟩ := guard_no_requirements_allow_and_attach noReqScenario rfl rfl rfl rfl
  obtain ⟨h3, h4⟩ := h2 plainUser rfl
  exact ⟨h1, h3, h4 baseCtx rfl⟩

theorem authenticateRequest_calls_pos (svc : Option AuthService) (ah : Option String) :
    0 < (authenticateRequest svc ah).2 →
    ∃ h t, ah = some h ∧ splitSpace h = ["Bearer", t] := by
  rcases svc with _ | s
  · intro hpos
    simp [authenticateRequest] at hpos
  rcases ah with _ | h
  · intro hpos
    simp [authenticateRequest] at hpos
  intro hpos
  simp only [authenticateRequest] at hpos
  rcases hsp : splitSpace h with _ | ⟨p0, _ | ⟨p1, _ | ⟨p2, rest⟩⟩⟩ <;> rw [hsp] at hpos
  · simp at hpos
  · simp at hpos
  · by_cases hb : p0 = "Bearer"
    · exact ⟨h, p1, rfl, by rw [hsp, hb]⟩
    · simp [hb] at hpos
  · simp at hpos

theorem storeUserInContext_idem (u : User) (ctx : Option ContextData) :
    storeUserInContext u (storeUserInContext u ctx).1 =
      storeUserInContext u ctx := by
  rcases ctx with _ | c <;> rfl

/-- C8: the authentication provider is invoked only when no principal is
already attached and the authorization header splits into exactly the
Bearer keyword followed by one token; a missing header or a header of
any other shape yields no principal with zero provider calls, and a
token whose validation throws yields no principal from the single call
instead of a propagated fault. -/
theorem guard_provider_invocation_conditions :
    (∀ inp : GuardInput,
       0 < (canActivate inp).providerCalls →
       initialUser inp = none ∧
       ∃ h t, inp.authHeader = some h ∧ splitSpace h = ["Bearer", t]) ∧
    (∀ (svc : AuthService) (h : String),
       (splitSpace h).length ≠ 2 ∨ (splitSpace h).head? ≠ some "Bearer" →
       authenticateRequest (some svc) (some h) = (none, 0)) ∧
    (∀ svc : AuthService, authenticateRequest (some svc) none = (none, 0)) ∧
    (∀ (svc : AuthService) (h t e : String),
       splitSpace h = ["Bearer", t] →
       svc.validateToken t = Except.error e →
       authenticateRequest (some svc) (some h) = (none, 1)) := by
  refine ⟨?_, ?_, ?_, ?_⟩
  · intro inp hpos
    by_cases hpub : (effectiveIsPublic inp).getD false = true
    · simp [canActivate, hpub] at hpos
    · have hpc : (canActivate inp).providerCalls = (resolveUser inp).2 := by
        simp [canActivate, hpub, afterAuth_providerCalls]
      rw [hpc] at hpos
      unfold resolveUser at hpos
      rcases hiu : initialUser inp with _ | u <;> rw [hiu] at hpos
      · refine ⟨rfl, ?_⟩
        rcases hsvc : inp.authService with _ | s <;> rw [hsvc] at hpos
        · simp at hpos
        · simp only [Option.isSome_some, if_true] at hpos
          rw [← hsvc] at hpos
          exact authenticateRequest_calls_pos inp.authService inp.authHeader hpos
      · simp at hpos
  · intro svc h hmal
    simp only [authenticateRequest]
    rcases hsp : splitSpace h with _ | ⟨p0, _ | ⟨p1, _ | ⟨p2, rest⟩⟩⟩
    · rfl
    · rfl
    · rcases hmal with hlen | hhd
      · rw [hsp] at hlen
        simp at hlen
      · rw [hsp] at hhd
        simp only [List.head?_cons, ne_eq, Option.some.injEq] at hhd
        simp [hhd]
    · rfl
  · intro svc
    rfl
  · intro svc h t e hsp hval
    simp only [authenticateRequest]
    rw [hsp]
    simp [hval]

/-- C8 witness: a non-bearer header and a missing header make zero
calls; an expired bearer token makes one call and yields no principal;
and the guard run on the expired-token scenario did invoke the
provider, which forces the no-principal and well-formed-header
conditions. -/
theorem guard_provider_invocation_conditions_witness :
    authenticateRequest (some throwingService) (some "Basic abc") = (none, 0) ∧
    authenticateRequest (some throwingService) none = (none, 0) ∧
    authenticateRequest (some throwingService) (some "Bearer expired-token") = (none, 1) ∧
    (initialUser bearerScenario = none ∧
     ∃ h t, bearerScenario.authHeader = some h ∧ splitSpace h = ["Bearer", t]) :=
  ⟨guard_provider_invocation_conditions.2.1 throwingService "Basic abc" (by decide),
   guard_provider_invocation_conditions.2.2.1 throwingService,
   guard_provider_invocation_conditions.2.2.2 throwingService "Bearer expired-token"
     "expired-token" "TokenExpiredError" (by decide) rfl,
   guard_provider_invocation_conditions.1 bearerScenario (by decide)⟩

/-- C10: on a non-public route with an effective requirement in force
and a resolved principal, canActivate writes the principal onto the
request and, when an ambient context is active, into the context user,
userId and roles fields, in every outcome including a Forbidden denial:
the denial is not atomic with respect to the context state. -/
theorem guard_store_before_checks :
    ∀ (inp : GuardInput) (u : User),
      (effectiveIsPublic inp).getD false = false →
      (rolesRequired inp || claimsRequired inp) = true →
      (resolveUser inp).1 = some u →
      (canActivate inp).requestUser = some u ∧
      (∀ c : ContextData, inp.ctx = some c →
        (canActivate inp).ctx =
          some { c with user := some u, userId := some u.id,
                        roles := some (principalRoles u) }) := by
  intro inp u hpub hreq hres
  simp only [canActivate, hpub, Bool.false_eq_true, if_false, hres]
  unfold afterAuth
  rw [hreq]
  simp only [if_true]
  constructor
  · split
    · rfl
    · split
      · rfl
      · rw [storeUserInContext_idem]
        rfl
  · intro c hc
    split
    · simp [storeUserInContext, hc]
    · split
      · simp [storeUserInContext, hc]
      · rw [storeUserInContext_idem]
        simp [storeUserInContext, hc]

/-- C10 witness: the denied scenario throws Forbidden, yet afterwards
the request carries the principal and the context holds its user, id
and roles. -/
theorem guard_store_before_checks_witness :
    (canActivate deniedScenario).requestUser = some plainUser ∧
    (canActivate deniedScenario).ctx =
      some { baseCtx with user := some plainUser, userId := some plainUser.id,
                          roles := some (principalRoles plainUser) } ∧
    (canActivate deniedScenario).result =
      Except.error (GuardError.forbidden "Required roles: Admin") := by
  obtain ⟨h1, h2⟩ := guard_store_before_checks deniedScenario plainUser rfl rfl rfl
  exact ⟨h1, h2 baseCtx rfl, rfl⟩

/-- C9 witness: concrete accessor reads outside any scope: a keyed Ctx
read, a whole-context Ctx read, a keyed CurrentUser read and the plain
accessors all come back absent, and IsCancelled reads false. -/
theorem decorators_absent_outside_scope_witness :
    Ctx (some CtxKey.traceId) none = none ∧
    Ctx none none = none ∧
    CurrentUser (some UserField.id) none = none ∧
    TraceId none = none ∧
    UserId none = none ∧
    RequestTimestamp none = none ∧
    IsCancelled none = false :=
  ⟨decorators_absent_outside_scope.1 (some CtxKey.traceId),
   decorators_absent_outside_scope.1 none,
   decorators_absent_outside_scope.2.2.1 (some UserField.id),
   decorators_absent_outside_scope.2.1,
   decorators_absent_outside_scope.2.2.2.1,
   decorators_absent_outside_scope.2.2.2.2.1,
   decorators_absent_outside_scope.2.2.2.2.2⟩
